import Mathlib

set_option maxHeartbeats 1000000

/-! Shallow embedding of the SetMod bootstrap orchestrator
(server/src/main.rs), the command alias lookup (server/src/aliases.rs)
and the water chat module (bot/src/module/water.rs), together with
theorems checking the specification of those components. -/

/-! ## Command aliases (server/src/aliases.rs)

The word iterator (utils::Words) is not part of this excerpt; it is
modelled abstractly as the list of whitespace-separated words of the
input line, with the rest of the iterator rendered back by joining the
remaining words with single spaces.  The template engine
(template::Template) is external; a template is an opaque identifier and
rendering is an abstract parameter that may fail, matching the fallible
template.render_to_string call whose error the source logs and turns
into None. -/

/-- Remaining words of the iterator, as the string handed to template
rendering (models utils::Words::rest). -/
def wordsRest (it : List String) : String :=
  String.intercalate " " it

/-- The str::starts_with test with a character pattern, as used at line
37 of aliases.rs: the first character of the string is the given one. -/
def strStartsWithChar (s : String) (c : Char) : Bool :=
  s.data.head? == some c

/-- Thing to match against (enum Match in aliases.rs). -/
inductive AliasMatch where
  | command (name : String)
deriving DecidableEq

/-- Replacement (enum Replace in aliases.rs); the template is opaque. -/
inductive Replace where
  | template (t : Nat)
deriving DecidableEq

/-- One alias entry (struct MatchReplace in aliases.rs). -/
structure MatchReplace where
  m : AliasMatch
  replace : Replace
deriving DecidableEq

/-- Replace::render: render the template on the rest of the iterator;
a rendering error is logged and mapped to None. -/
def Replace.render (renderToString : Nat → String → Except String String) :
    Replace → List String → Option String
  | .template t, it =>
    match renderToString t (wordsRest it) with
    | .ok s => some s
    | .error _ => none

/-- MatchReplace::matches: test if the given input matches and return
the corresponding replacement if it does. -/
def MatchReplace.matches (renderToString : Nat → String → Except String String)
    (mr : MatchReplace) (it : List String) : Option String :=
  match mr.m with
  | .command name =>
    match it with
    | value :: rest =>
      if strStartsWithChar value '!' then
        if name = value.drop 1 then Replace.render renderToString mr.replace rest
        else none
      else none
    | [] => none

/-- Command aliases (struct Aliases in aliases.rs). -/
structure Aliases where
  aliases : List MatchReplace
deriving DecidableEq

/-- Aliases::lookup: return the first Some produced by trying each alias
in list order. -/
def Aliases.lookup (renderToString : Nat → String → Except String String)
    (a : Aliases) (it : List String) : Option String :=
  a.aliases.findSome? (fun al => al.matches renderToString it)

/-- The pure name-match condition of the claim: the first word of the
input starts with an exclamation mark and the remainder of that word
equals the alias name. -/
def nameMatches (mr : MatchReplace) (it : List String) : Bool :=
  match mr.m, it with
  | .command name, value :: _ => strStartsWithChar value '!' && value.drop 1 = name
  | _, [] => false

/-- The claim read literally: the rendered replacement of the first
alias in list order whose (name) match succeeds, None when no alias
matches. -/
def lookupClaim (renderToString : Nat → String → Except String String)
    (a : Aliases) (it : List String) : Option String :=
  match a.aliases.find? (fun al => nameMatches al it) with
  | some al => Replace.render renderToString al.replace it.tail
  | none => none

/-- The amended reading: the rendered replacement of the first alias in
list order whose match succeeds and whose replacement renders
successfully; None when no alias both matches and renders. -/
def lookupAmended (renderToString : Nat → String → Except String String)
    (a : Aliases) (it : List String) : Option String :=
  a.aliases.findSome? (fun al =>
    if nameMatches al it then Replace.render renderToString al.replace it.tail
    else none)

/-! ## Water chat module (bot/src/module/water.rs)

Times (chrono DateTime and Utc::now) are modelled as integer timestamps
in seconds; the whole-minute count of a difference is truncating
division by 60, exactly chrono Duration::num_minutes.  The cooldown
(utils::Cooldown, not part of this excerpt) is modelled by the boolean
its is_open call returns at this invocation, carried as a handler field;
the handler only branches on that value.  The moderator check
(command::Context::check_moderator, not part of this excerpt) is
modelled as a boolean of the invocation context, failing exactly when
the caller is not a moderator.  Chat and database side effects of the
context are recorded as an ordered effect list. -/

/-- A reward entry (struct Reward in water.rs); the amount is the i32
field, carried as an integer. -/
structure Reward where
  user : String
  amount : Int
deriving DecidableEq

/-- State of the water command handler (struct Handler in water.rs):
its currency name, the cooldown answer for this invocation, and the
waters list. -/
structure Handler where
  currencyName : String
  cooldownOpen : Bool
  waters : List (Int × Option Reward)
deriving DecidableEq

/-- Per-invocation context (command::Context plus the values read from
the shared stream info). -/
structure Context where
  args : List String
  userName : String
  userTarget : String
  streamer : String
  isModerator : Bool
  now : Int
  streamStartedAt : Option Int
deriving DecidableEq

/-- Observable side effects issued through the context, in order. -/
inductive Effect where
  | respond (msg : String)
  | privmsg (msg : String)
  | spawnBalanceAdd (target : String) (user : String) (amount : Int)
deriving DecidableEq

/-- Errors bailed out of the water handler. -/
inductive WaterErr where
  | streamStartUnknown
  | notModerator
deriving DecidableEq

/-- Whole minutes of a duration given in seconds (chrono
Duration::num_minutes, truncation toward zero). -/
def numMinutes (d : Int) : Int :=
  d.tdiv 60

/-- The cast from i64 to i32 (the as i32 in water.rs), as wrap-around on
integers. -/
def wrapI32 (x : Int) : Int :=
  (x + 2 ^ 31) % 2 ^ 32 - 2 ^ 31

/-- Handler::check_waters: answer the last water entry, or seed the list
with the stream start; respond and fail when no start time is known.
Returns the updated handler, the effects issued, and the result. -/
def check_waters (h : Handler) (ctx : Context) :
    Handler × List Effect × Except WaterErr (Int × Option Reward) :=
  match h.waters.getLast? with
  | some (frt, user) => (h, [], .ok (frt, user))
  | none =>
    match ctx.streamStartedAt with
    | some startedAt =>
      ({ h with waters := h.waters ++ [(startedAt, none)] }, [],
        .ok (startedAt, none))
    | none =>
      (h, [.respond "Sorry, the !water command is currently not available :("],
        .error .streamStartUnknown)

/-- Handler::handle for the water command: cooldown gate, then dispatch
on the first argument (undo, absent, or anything else).  Returns the
updated handler, the ordered effects, and the handler result. -/
def handle (h : Handler) (ctx : Context) :
    Handler × List Effect × Except WaterErr Unit :=
  if !h.cooldownOpen then
    (h, [.respond "A !water command was recently issued, please wait a bit longer!"],
      .ok ())
  else
    match ctx.args with
    | [] =>
      match check_waters h ctx with
      | (h1, effs, .error e) => (h1, effs, .error e)
      | (h1, effs, .ok (last, _)) =>
        let amount := wrapI32 (max 0 (numMinutes (ctx.now - last)))
        let h2 := { h1 with
          waters := h1.waters ++ [(ctx.now, some { user := ctx.userName, amount := amount })] }
        (h2, effs ++
          [.respond (ctx.streamer ++ ", DRINK SOME WATER! " ++ ctx.userName ++
            " has been rewarded " ++ toString amount ++ " " ++ h2.currencyName ++
            " for the reminder."),
           .spawnBalanceAdd ctx.userTarget ctx.userName amount],
          .ok ())
    | arg :: _ =>
      if arg = "undo" then
        if !ctx.isModerator then (h, [], .error .notModerator)
        else
          match check_waters h ctx with
          | (h1, effs, .error e) => (h1, effs, .error e)
          | (h1, effs, .ok (_, reward)) =>
            let h2 := { h1 with waters := h1.waters.dropLast }
            match reward with
            | none =>
              (h2, effs ++ [.respond "No one has been rewarded for !water yet cmonBruh"],
                .ok ())
            | some reward =>
              (h2, effs ++
                [.privmsg (reward.user ++
                  " issued a bad !water that is now being undone FeelsBadMan"),
                 .spawnBalanceAdd ctx.userTarget reward.user (-reward.amount)],
                .ok ())
      else
        (h, [.respond "Expected: !water, or !water undo."], .ok ())

/-- Outcome of the detached balance-update task spawned by the no-argument
water path: its database error is mapped to a log line only; the task
itself resolves without an error channel. -/
def runSpawnedWaterUpdate (dbResult : Except String Unit) : List String :=
  match dbResult with
  | .ok _ => []
  | .error e => ["failed to update water to database: " ++ e]

/-- Outcome of the detached balance-update task spawned by the undo path:
its database error is likewise mapped to a log line only. -/
def runSpawnedWaterUndo (dbResult : Except String Unit) : List String :=
  match dbResult with
  | .ok _ => []
  | .error e => ["failed to undo water from database: " ++ e]

/-- The last water time the no-argument path computes its reward from:
the last entry of the waters list, or the stream start when the list is
empty. -/
def lastWaterTime (h : Handler) (ctx : Context) : Option Int :=
  match h.waters.getLast? with
  | some (frt, _) => some frt
  | none => ctx.streamStartedAt

/-! ## Bootstrap orchestrator (server/src/main.rs)

The model starts after configuration, secrets and database loading
(lines 54 to 115 of main.rs): it covers the web spawn, the credential
acquisition batch, and the construction of the join set.  External
collaborators are oracles in an environment: each authorization flow
execution yields a token paired with a renewal future or an error, and
notifier listening, client construction, player startup and chat
startup each may fail.  Opaque values (tokens, renewal futures, player
handles) are natural-number identifiers. -/

/-- A (provider, role) pair for which a flow is executed, in the order
the requests are issued. -/
inductive Role where
  | spotify
  | twitchStreamer
  | twitchBot
deriving DecidableEq

/-- Result of one successful flow execution: the access token and the
renewal future that keeps it fresh (both opaque). -/
structure Acq where
  token : Nat
  renewalTask : Nat
deriving DecidableEq

/-- Feature flags (features::Feature); only song is consulted in this
excerpt, other stands for the remaining variants of the external enum. -/
inductive Feature where
  | song
  | other (n : Nat)
deriving DecidableEq

/-- FeatureSet::test as used at line 179 of main.rs. -/
def featureTest (features : List Feature) (f : Feature) : Bool :=
  features.contains f

/-- The configuration fields main.rs reads past loading: the optional
chat (irc) section, the optional player section, and the feature set.
The spotify and twitch provider sections are mandatory fields and
carry no data the model needs. -/
structure Config where
  irc : Option Nat
  player : Option Nat
  features : List Feature
deriving DecidableEq

/-- A member of the futures vec joined at line 219 of main.rs, or the
web server task (which is spawned elsewhere and may not appear in that
vec). -/
inductive BootTask where
  | webServer
  | renewal (id : Nat)
  | notifier
  | player
  | chat
deriving DecidableEq

/-- Milestones of the bootstrap, in program order. -/
inductive Event where
  | spawnDetachedWeb
  | issueAcquire (r : Role)
  | awaitAcquisitions
  | pushFuture (t : BootTask)
  | runJoinAll
deriving DecidableEq

/-- External outcomes the bootstrap consumes. -/
structure Env where
  exec : Role → Except String Acq
  notifierListen : Except String Unit
  spotifyNew : Except String Unit
  twitchNew : Except String Unit
  playerRun : Except String Nat
  ircRun : Except String Unit

/-- The roles for which flow executions are pushed into the tokens vec,
in issue order (lines 129 to 156 of main.rs): spotify and the streamer
unconditionally, the bot exactly when an irc section is present. -/
def issuedRoles (c : Config) : List Role :=
  [Role.spotify, Role.twitchStreamer] ++
    (if c.irc.isSome then [Role.twitchBot] else [])

/-- future::join_all over already-determined outcomes: the list of all
values when every element resolved, otherwise an error of a failing
element (the model picks the first in list order). -/
def joinAll {α : Type} : List (Except String α) → Except String (List α)
  | [] => .ok []
  | .error e :: _ => .error e
  | .ok a :: rest =>
    match joinAll rest with
    | .ok vs => .ok (a :: vs)
    | .error e => .error e

/-- What the bootstrap has built when construction succeeds. -/
structure Boot where
  futures : List BootTask
  spotifyToken : Nat
  streamerToken : Nat
  botToken : Option Nat
  player : Option Nat
  chatPlayerArg : Option (Option Nat)
deriving DecidableEq

/-- Lines 195 to 217 of main.rs: the chat-runtime branch of the
construction, entered with the futures pushed so far, the two consumed
tokens and the optional player handle. -/
def constructIrc (env : Env) (c : Config) (rest2 : List Acq)
    (futures : List BootTask) (spotifyToken streamerToken : Nat)
    (playerOpt : Option Nat) : List BootTask × Except String Boot :=
  match c.irc with
  | some _ =>
    match rest2 with
    | [] => (futures, .error "expected streamer token")
    | botAcq :: _ =>
      let futures4 := futures ++ [BootTask.renewal botAcq.renewalTask]
      match env.ircRun with
      | .error e => (futures4, .error e)
      | .ok _ =>
        (futures4 ++ [BootTask.chat],
          .ok { futures := futures4 ++ [BootTask.chat],
                spotifyToken := spotifyToken,
                streamerToken := streamerToken,
                botToken := some botAcq.token,
                player := playerOpt,
                chatPlayerArg := some playerOpt })
  | none =>
    (futures,
      .ok { futures := futures,
            spotifyToken := spotifyToken,
            streamerToken := streamerToken,
            botToken := none,
            player := playerOpt,
            chatPlayerArg := none })

/-- Lines 160 to 217 of main.rs: positional consumption of the
acquisition results and construction of the join set.  Returns the
futures pushed so far (also on error) and the outcome. -/
def construct (env : Env) (c : Config) (results : List Acq) :
    List BootTask × Except String Boot :=
  match results with
  | [] => ([], .error "expected spotify token")
  | sAcq :: rest1 =>
    let futures1 := [BootTask.renewal sAcq.renewalTask]
    match rest1 with
    | [] => (futures1, .error "expected streamer token")
    | stAcq :: rest2 =>
      let futures2 := futures1 ++ [BootTask.renewal stAcq.renewalTask]
      match env.notifierListen with
      | .error e => (futures2, .error e)
      | .ok _ =>
        let futures3 := futures2 ++ [BootTask.notifier]
        match env.spotifyNew with
        | .error e => (futures3, .error e)
        | .ok _ =>
          match env.twitchNew with
          | .error e => (futures3, .error e)
          | .ok _ =>
            match c.player with
            | some _ =>
              if featureTest c.features Feature.song then
                match env.playerRun with
                | .error e => (futures3, .error e)
                | .ok playerHandle =>
                  constructIrc env c rest2
                    (futures3 ++ [BootTask.player])
                    sAcq.token stAcq.token (some playerHandle)
              else
                constructIrc env c rest2 futures3 sAcq.token stAcq.token none
            | none =>
              constructIrc env c rest2 futures3 sAcq.token stAcq.token none

/-- The acquisition-phase events: every issued request, then the await
of the whole batch. -/
def acquisitionEvents (c : Config) : List Event :=
  (issuedRoles c).map Event.issueAcquire ++ [Event.awaitAcquisitions]

/-- The bootstrap from the web spawn on (lines 119 to 221 of main.rs):
spawn the web server detached, issue and await the acquisition batch,
construct the join set, and enter the final join.  Returns the event
trace and the outcome. -/
def mainModel (env : Env) (c : Config) : List Event × Except String Boot :=
  match joinAll ((issuedRoles c).map env.exec) with
  | .error e =>
    (Event.spawnDetachedWeb :: acquisitionEvents c, .error e)
  | .ok results =>
    match construct env c results with
    | (futs, .error e) =>
      (Event.spawnDetachedWeb ::
        (acquisitionEvents c ++ futs.map Event.pushFuture), .error e)
    | (futs, .ok boot) =>
      (Event.spawnDetachedWeb ::
        (acquisitionEvents c ++ futs.map Event.pushFuture ++ [Event.runJoinAll]),
        .ok boot)

/-- The closure at lines 122 to 125 of main.rs, wrapped around the web
future before it is spawned on the separate runtime: an error of the web
server is mapped to a log line and otherwise discarded. -/
def runDetachedWeb (webOutcome : Except String Unit) : List String :=
  match webOutcome with
  | .ok _ => []
  | .error e => ["Error in web server: " ++ e]

/-- Line 219 of main.rs: the final join over the futures vec, given the
runtime outcome of every task, discarding the collected unit values. -/
def runPhase (futures : List BootTask) (outcome : BootTask → Except String Unit) :
    Except String Unit :=
  (joinAll (futures.map outcome)).map (fun _ => ())

/-- True exactly on acquisition-issue events. -/
def Event.isAcquire : Event → Bool
  | .issueAcquire _ => true
  | _ => false

/-! ## Concrete instances used in witness checks -/

/-- A concrete all-success acquisition oracle. -/
def execOk : Role → Except String Acq
  | .spotify => .ok { token := 1, renewalTask := 11 }
  | .twitchStreamer => .ok { token := 2, renewalTask := 12 }
  | .twitchBot => .ok { token := 3, renewalTask := 13 }

/-- A concrete all-success environment. -/
def envOk : Env :=
  { exec := execOk, notifierListen := .ok (), spotifyNew := .ok (),
    twitchNew := .ok (), playerRun := .ok 7, ircRun := .ok () }

/-- A concrete acquisition oracle whose spotify flow is rejected. -/
def execFail : Role → Except String Acq
  | .spotify => .error "rejected"
  | .twitchStreamer => .ok { token := 2, renewalTask := 12 }
  | .twitchBot => .ok { token := 3, renewalTask := 13 }

/-- A concrete environment whose spotify acquisition fails. -/
def envFail : Env :=
  { exec := execFail, notifierListen := .ok (), spotifyNew := .ok (),
    twitchNew := .ok (), playerRun := .ok 7, ircRun := .ok () }

/-- Configuration with chat runtime and player sections present and the
song feature enabled. -/
def cfgFull : Config :=
  { irc := some 0, player := some 0, features := [Feature.song] }

/-- Configuration with no chat runtime and no player section. -/
def cfgPlain : Config :=
  { irc := none, player := none, features := [] }

/-- The join set produced by the successful full bootstrap. -/
def futuresFull : List BootTask :=
  [BootTask.renewal 11, BootTask.renewal 12, BootTask.notifier, BootTask.player,
    BootTask.renewal 13, BootTask.chat]

/-- The outcome produced by the successful full bootstrap. -/
def bootFull : Boot :=
  { futures := futuresFull, spotifyToken := 1, streamerToken := 2,
    botToken := some 3, player := some 7, chatPlayerArg := some (some 7) }

/-- The event trace produced by the successful full bootstrap. -/
def traceFull : List Event :=
  Event.spawnDetachedWeb ::
    ([Event.issueAcquire Role.spotify, Event.issueAcquire Role.twitchStreamer,
      Event.issueAcquire Role.twitchBot, Event.awaitAcquisitions] ++
      futuresFull.map Event.pushFuture ++ [Event.runJoinAll])

/-! ## Theorems about the water module -/

/-- Helper: the i32 cast is the identity on values in range. -/
theorem wrapI32_eq_of_fits (m : Int) (h0 : 0 ≤ m) (hf : m ≤ 2 ^ 31 - 1) :
    wrapI32 m = m := by
  unfold wrapI32
  have hmod : (m + 2 ^ 31) % 2 ^ 32 = m + 2 ^ 31 :=
    Int.emod_eq_of_lt (by omega) (by omega)
  omega

/-- C9: if the cooldown is not open, the water handler responds with the
wait message and returns success, leaves its state (including the waters
list) unchanged, spawns nothing, and never reads the command
arguments. -/
theorem water_cooldown_closed (h : Handler) (ctx : Context)
    (hc : h.cooldownOpen = false) :
    handle h ctx =
      (h, [Effect.respond "A !water command was recently issued, please wait a bit longer!"],
        Except.ok ()) ∧
    (∀ args2, handle h { ctx with args := args2 } = handle h ctx) := by
  constructor
  · simp [handle, hc]
  · intro args2
    simp [handle, hc]

/-- C9 witness: a concrete closed-cooldown invocation. -/
theorem water_cooldown_closed_witness :
    ({ currencyName := "gold", cooldownOpen := false, waters := [] } : Handler).cooldownOpen
        = false ∧
    (handle { currencyName := "gold", cooldownOpen := false, waters := [] }
        { args := ["undo"], userName := "alice", userTarget := "chan", streamer := "bob",
          isModerator := true, now := 300, streamStartedAt := some 0 } =
      ({ currencyName := "gold", cooldownOpen := false, waters := [] },
        [Effect.respond "A !water command was recently issued, please wait a bit longer!"],
        Except.ok ()) ∧
    (∀ args2,
      handle { currencyName := "gold", cooldownOpen := false, waters := [] }
        { args := args2, userName := "alice", userTarget := "chan", streamer := "bob",
          isModerator := true, now := 300, streamStartedAt := some 0 } =
      handle { currencyName := "gold", cooldownOpen := false, waters := [] }
        { args := ["undo"], userName := "alice", userTarget := "chan", streamer := "bob",
          isModerator := true, now := 300, streamStartedAt := some 0 })) :=
  ⟨rfl, water_cooldown_closed _ _ rfl⟩

/-- C10: for a no-argument water invocation passing the cooldown and
with a determinable last-water time, the reward amount recorded in the
waters list and credited by the spawned balance update equals
max(0, whole minutes since the last water entry) cast to i32, and is
non-negative (indeed untouched by the cast) whenever that minute count
fits in i32. -/
theorem water_reward_minutes (h : Handler) (ctx : Context) (last : Int)
    (hc : h.cooldownOpen = true) (ha : ctx.args = [])
    (hl : lastWaterTime h ctx = some last) :
    (handle h ctx).2.2 = Except.ok () ∧
    (handle h ctx).1.waters.getLast? =
      some (ctx.now,
        some { user := ctx.userName,
               amount := wrapI32 (max 0 (numMinutes (ctx.now - last))) }) ∧
    Effect.spawnBalanceAdd ctx.userTarget ctx.userName
        (wrapI32 (max 0 (numMinutes (ctx.now - last)))) ∈ (handle h ctx).2.1 ∧
    (max 0 (numMinutes (ctx.now - last)) ≤ 2 ^ 31 - 1 →
      wrapI32 (max 0 (numMinutes (ctx.now - last)))
          = max 0 (numMinutes (ctx.now - last)) ∧
      0 ≤ wrapI32 (max 0 (numMinutes (ctx.now - last)))) := by
  have hfits : max 0 (numMinutes (ctx.now - last)) ≤ 2 ^ 31 - 1 →
      wrapI32 (max 0 (numMinutes (ctx.now - last)))
          = max 0 (numMinutes (ctx.now - last)) ∧
      0 ≤ wrapI32 (max 0 (numMinutes (ctx.now - last))) := by
    intro hle
    have h0 : (0 : Int) ≤ max 0 (numMinutes (ctx.now - last)) := le_max_left 0 _
    have heq := wrapI32_eq_of_fits _ h0 hle
    exact ⟨heq, by omega⟩
  cases hw : h.waters.getLast? with
  | some p =>
    obtain ⟨frt, u⟩ := p
    have hlast : last = frt := by
      simp [lastWaterTime, hw] at hl
      omega
    subst hlast
    refine ⟨?_, ?_, ?_, hfits⟩ <;>
      simp [handle, hc, ha, check_waters, hw, List.getLast?_concat]
  | none =>
    cases hss : ctx.streamStartedAt with
    | none => simp [lastWaterTime, hw, hss] at hl
    | some s =>
      have hlast : last = s := by
        simp [lastWaterTime, hw, hss] at hl
        omega
      subst hlast
      refine ⟨?_, ?_, ?_, hfits⟩ <;>
        simp [handle, hc, ha, check_waters, hw, hss, List.getLast?_concat]

/-- C10 witness: three minutes after the only water entry, the reward is
three currency units. -/
theorem water_reward_minutes_witness :
    ({ currencyName := "gold", cooldownOpen := true,
       waters := [(0, none)] } : Handler).cooldownOpen = true ∧
    ({ args := [], userName := "alice", userTarget := "chan", streamer := "bob",
       isModerator := false, now := 185, streamStartedAt := none } : Context).args = [] ∧
    lastWaterTime
      { currencyName := "gold", cooldownOpen := true, waters := [(0, none)] }
      { args := [], userName := "alice", userTarget := "chan", streamer := "bob",
        isModerator := false, now := 185, streamStartedAt := none } = some 0 ∧
    ((handle { currencyName := "gold", cooldownOpen := true, waters := [(0, none)] }
        { args := [], userName := "alice", userTarget := "chan", streamer := "bob",
          isModerator := false, now := 185, streamStartedAt := none }).2.2
        = Except.ok () ∧
     (handle { currencyName := "gold", cooldownOpen := true, waters := [(0, none)] }
        { args := [], userName := "alice", userTarget := "chan", streamer := "bob",
          isModerator := false, now := 185, streamStartedAt := none }).1.waters.getLast? =
        some (185, some { user := "alice", amount := wrapI32 (max 0 (numMinutes (185 - 0))) }) ∧
     Effect.spawnBalanceAdd "chan" "alice" (wrapI32 (max 0 (numMinutes (185 - 0)))) ∈
        (handle { currencyName := "gold", cooldownOpen := true, waters := [(0, none)] }
          { args := [], userName := "alice", userTarget := "chan", streamer := "bob",
            isModerator := false, now := 185, streamStartedAt := none }).2.1 ∧
     (max 0 (numMinutes (185 - 0)) ≤ 2 ^ 31 - 1 →
        wrapI32 (max 0 (numMinutes (185 - 0))) = max 0 (numMinutes (185 - 0)) ∧
        0 ≤ wrapI32 (max 0 (numMinutes (185 - 0))))) :=
  ⟨rfl, rfl, rfl,
    water_reward_minutes
      { currencyName := "gold", cooldownOpen := true, waters := [(0, none)] }
      { args := [], userName := "alice", userTarget := "chan", streamer := "bob",
        isModerator := false, now := 185, streamStartedAt := none }
      0 rfl rfl rfl⟩


/-- C7: whenever the water handler spawns a balance-updating side
effect, the handler has already returned success, the user-facing
message is issued strictly before the spawn in the effect order, and
the detached task maps a database failure to a log line only, so no
plugin-internal error can propagate. -/
theorem water_spawn_error_only_logged (h : Handler) (ctx : Context)
    (hs : ∃ t u a, Effect.spawnBalanceAdd t u a ∈ (handle h ctx).2.1) :
    (handle h ctx).2.2 = Except.ok () ∧
    (∃ msg t u a,
      (handle h ctx).2.1 = [msg, Effect.spawnBalanceAdd t u a] ∧
      ((∃ s, msg = Effect.respond s) ∨ (∃ s, msg = Effect.privmsg s))) ∧
    (∀ e, runSpawnedWaterUpdate (Except.error e) =
      ["failed to update water to database: " ++ e]) ∧
    (∀ e, runSpawnedWaterUndo (Except.error e) =
      ["failed to undo water from database: " ++ e]) := by
  by_cases hc : h.cooldownOpen
  case neg =>
    simp [handle, hc] at hs
  case pos =>
    cases harg : ctx.args with
    | nil =>
      cases hw : h.waters.getLast? with
      | some p =>
        obtain ⟨frt, u⟩ := p
        have heff : (handle h ctx).2.1 =
            [Effect.respond (ctx.streamer ++ ", DRINK SOME WATER! " ++ ctx.userName ++
              " has been rewarded " ++
              toString (wrapI32 (max 0 (numMinutes (ctx.now - frt)))) ++ " " ++
              h.currencyName ++ " for the reminder."),
             Effect.spawnBalanceAdd ctx.userTarget ctx.userName
              (wrapI32 (max 0 (numMinutes (ctx.now - frt))))] := by
          simp [handle, hc, harg, check_waters, hw]
        refine ⟨by simp [handle, hc, harg, check_waters, hw],
          ⟨_, _, _, _, heff, Or.inl ⟨_, rfl⟩⟩, fun e => rfl, fun e => rfl⟩
      | none =>
        cases hss : ctx.streamStartedAt with
        | some s =>
          have heff : (handle h ctx).2.1 =
              [Effect.respond (ctx.streamer ++ ", DRINK SOME WATER! " ++ ctx.userName ++
                " has been rewarded " ++
                toString (wrapI32 (max 0 (numMinutes (ctx.now - s)))) ++ " " ++
                h.currencyName ++ " for the reminder."),
               Effect.spawnBalanceAdd ctx.userTarget ctx.userName
                (wrapI32 (max 0 (numMinutes (ctx.now - s))))] := by
            simp [handle, hc, harg, check_waters, hw, hss]
          refine ⟨by simp [handle, hc, harg, check_waters, hw, hss],
            ⟨_, _, _, _, heff, Or.inl ⟨_, rfl⟩⟩, fun e => rfl, fun e => rfl⟩
        | none =>
          simp [handle, hc, harg, check_waters, hw, hss] at hs
    | cons w ws =>
      by_cases hu : w = "undo"
      case neg =>
        simp [handle, hc, harg, hu] at hs
      case pos =>
        subst hu
        by_cases hm : ctx.isModerator
        case neg =>
          simp [handle, hc, harg, hm] at hs
        case pos =>
          cases hw : h.waters.getLast? with
          | some p =>
            obtain ⟨frt, u⟩ := p
            cases u with
            | none =>
              simp [handle, hc, harg, hm, check_waters, hw] at hs
            | some rw =>
              have heff : (handle h ctx).2.1 =
                  [Effect.privmsg (rw.user ++
                    " issued a bad !water that is now being undone FeelsBadMan"),
                   Effect.spawnBalanceAdd ctx.userTarget rw.user (-rw.amount)] := by
                simp [handle, hc, harg, hm, check_waters, hw]
              refine ⟨by simp [handle, hc, harg, hm, check_waters, hw],
                ⟨_, _, _, _, heff, Or.inr ⟨_, rfl⟩⟩, fun e => rfl, fun e => rfl⟩
          | none =>
            cases hss : ctx.streamStartedAt with
            | some s =>
              simp [handle, hc, harg, hm, check_waters, hw, hss] at hs
            | none =>
              simp [handle, hc, harg, hm, check_waters, hw, hss] at hs

/-- C7 witness: a concrete rewarded water invocation spawns a balance
update after the response, with success. -/
theorem water_spawn_error_only_logged_witness :
    (∃ t u a, Effect.spawnBalanceAdd t u a ∈
      (handle { currencyName := "gold", cooldownOpen := true, waters := [(0, none)] }
        { args := [], userName := "alice", userTarget := "chan", streamer := "bob",
          isModerator := false, now := 185, streamStartedAt := none }).2.1) ∧
    ((handle { currencyName := "gold", cooldownOpen := true, waters := [(0, none)] }
        { args := [], userName := "alice", userTarget := "chan", streamer := "bob",
          isModerator := false, now := 185, streamStartedAt := none }).2.2
        = Except.ok () ∧
     (∃ msg t u a,
       (handle { currencyName := "gold", cooldownOpen := true, waters := [(0, none)] }
          { args := [], userName := "alice", userTarget := "chan", streamer := "bob",
            isModerator := false, now := 185, streamStartedAt := none }).2.1 =
          [msg, Effect.spawnBalanceAdd t u a] ∧
       ((∃ s, msg = Effect.respond s) ∨ (∃ s, msg = Effect.privmsg s))) ∧
     (∀ e, runSpawnedWaterUpdate (Except.error e) =
       ["failed to update water to database: " ++ e]) ∧
     (∀ e, runSpawnedWaterUndo (Except.error e) =
       ["failed to undo water from database: " ++ e])) :=
  ⟨⟨"chan", "alice", wrapI32 (max 0 (numMinutes (185 - 0))), by simp [handle, check_waters]⟩,
    water_spawn_error_only_logged
      { currencyName := "gold", cooldownOpen := true, waters := [(0, none)] }
      { args := [], userName := "alice", userTarget := "chan", streamer := "bob",
        isModerator := false, now := 185, streamStartedAt := none }
      ⟨"chan", "alice", wrapI32 (max 0 (numMinutes (185 - 0))), by simp [handle, check_waters]⟩⟩

/-! ## Theorems about alias lookup -/

/-- Helper: MatchReplace::matches is the name match followed by the
(fallible) rendering of the replacement on the remaining words. -/
theorem matches_eq_render_of_nameMatches
    (renderToString : Nat → String → Except String String)
    (mr : MatchReplace) (it : List String) :
    mr.matches renderToString it =
      (if nameMatches mr it then Replace.render renderToString mr.replace it.tail
       else none) := by
  obtain ⟨m, rep⟩ := mr
  obtain ⟨name⟩ := m
  cases it with
  | nil => simp [MatchReplace.matches, nameMatches]
  | cons v rest =>
    by_cases h1 : strStartsWithChar v '!' = true <;>
      by_cases h2 : name = v.drop 1 <;>
        simp [MatchReplace.matches, nameMatches, h1, h2, eq_comm]

/-- C8 (amended): lookup returns the rendered replacement of the first
alias in list order whose match succeeds and whose replacement renders
successfully, and None when no alias both matches and renders; a
command alias with name N matches exactly when the first word of the
input starts with an exclamation mark and the remainder of that word
equals N. -/
theorem lookup_eq_first_match_rendering
    (renderToString : Nat → String → Except String String)
    (a : Aliases) (it : List String) :
    a.lookup renderToString it = lookupAmended renderToString a it := by
  unfold Aliases.lookup lookupAmended
  simp only [matches_eq_render_of_nameMatches]

/-- C8 counterexample: with two aliases both named a, a template for the
first whose rendering fails and a template for the second whose
rendering succeeds, the input matches the first alias by name, yet
lookup returns the rendering of the second alias, while the claim as
stated predicts the (failed) rendering of the first. -/
theorem lookup_not_first_name_match_cex :
    nameMatches { m := AliasMatch.command "a", replace := Replace.template 0 } ["!a"]
        = true ∧
    Replace.render
        (fun t _ => if t = 0 then Except.error "boom" else Except.ok "out")
        (Replace.template 0) [] = none ∧
    Aliases.lookup
        (fun t _ => if t = 0 then Except.error "boom" else Except.ok "out")
        { aliases := [{ m := AliasMatch.command "a", replace := Replace.template 0 },
                      { m := AliasMatch.command "a", replace := Replace.template 1 }] }
        ["!a"] = some "out" ∧
    lookupClaim
        (fun t _ => if t = 0 then Except.error "boom" else Except.ok "out")
        { aliases := [{ m := AliasMatch.command "a", replace := Replace.template 0 },
                      { m := AliasMatch.command "a", replace := Replace.template 1 }] }
        ["!a"] = none := by
  refine ⟨by decide, rfl, ?_, ?_⟩ <;> rfl

/-! ## Theorems about the bootstrap orchestrator -/

/-- Helper: join_all fails whenever the batch contains a failure, and
the reported error is the error of a failing element. -/
theorem joinAll_error_of_mem {α : Type} (l : List (Except String α)) (e0 : String)
    (h : Except.error e0 ∈ l) :
    ∃ e, joinAll l = Except.error e ∧ Except.error e ∈ l := by
  induction l with
  | nil => simp at h
  | cons x rest ih =>
    cases x with
    | error e => exact ⟨e, rfl, by simp⟩
    | ok a =>
      have hmem : Except.error e0 ∈ rest := by
        rcases List.mem_cons.mp h with h1 | h1
        · exact absurd h1 (by simp)
        · exact h1
      obtain ⟨e, he, hin⟩ := ih hmem
      exact ⟨e, by simp [joinAll, he], List.mem_cons_of_mem _ hin⟩

/-- Helper: join_all reports exactly the failing element's error when
every other element succeeded. -/
theorem joinAll_single_error {α : Type} (l : List (Except String α)) (e : String)
    (hmem : Except.error e ∈ l)
    (hothers : ∀ x ∈ l, x ≠ Except.error e → x.isOk = true) :
    joinAll l = Except.error e := by
  induction l with
  | nil => simp at hmem
  | cons x rest ih =>
    cases x with
    | error e2 =>
      have he2 : e2 = e := by
        by_contra hne
        have hok := hothers _ (List.mem_cons_self _ _) (by simp [hne])
        simp [Except.isOk, Except.toBool] at hok
      subst he2
      rfl
    | ok a =>
      have hmem2 : Except.error e ∈ rest := by
        rcases List.mem_cons.mp hmem with h1 | h1
        · exact absurd h1 (by simp)
        · exact h1
      have hrec := ih hmem2 (fun x hx hne => hothers x (List.mem_cons_of_mem _ hx) hne)
      simp [joinAll, hrec]

/-- Helper: inversion of a successful bootstrap: the unconditional
acquisitions succeeded and were consumed positionally, and the join set
has the gated shape with no web-server member. -/
theorem mainModel_ok_inversion (env : Env) (c : Config) (tr : List Event) (boot : Boot)
    (h : mainModel env c = (tr, Except.ok boot)) :
    ∃ sAcq stAcq playerPart botPart,
      env.exec Role.spotify = Except.ok sAcq ∧
      env.exec Role.twitchStreamer = Except.ok stAcq ∧
      boot.spotifyToken = sAcq.token ∧
      boot.streamerToken = stAcq.token ∧
      boot.futures =
        [BootTask.renewal sAcq.renewalTask, BootTask.renewal stAcq.renewalTask,
          BootTask.notifier] ++ playerPart ++ botPart ∧
      ((c.player.isSome = true ∧ featureTest c.features Feature.song = true ∧
          playerPart = [BootTask.player] ∧
          ∃ p, env.playerRun = Except.ok p ∧ boot.player = some p) ∨
       (¬(c.player.isSome = true ∧ featureTest c.features Feature.song = true) ∧
          playerPart = [] ∧ boot.player = none)) ∧
      (c.irc.isSome = true →
        ∃ botAcq, env.exec Role.twitchBot = Except.ok botAcq ∧
          botPart = [BootTask.renewal botAcq.renewalTask, BootTask.chat] ∧
          boot.botToken = some botAcq.token ∧
          boot.chatPlayerArg = some boot.player) ∧
      (c.irc = none →
        botPart = [] ∧ boot.botToken = none ∧ boot.chatPlayerArg = none) := by
  obtain ⟨irc, player, features⟩ := c
  cases irc with
  | none =>
    cases hs : env.exec Role.spotify with
    | error e => simp [mainModel, issuedRoles, joinAll, hs] at h
    | ok sAcq =>
      cases hst : env.exec Role.twitchStreamer with
      | error e => simp [mainModel, issuedRoles, joinAll, hs, hst] at h
      | ok stAcq =>
        cases hn : env.notifierListen with
        | error e =>
          simp [mainModel, issuedRoles, joinAll, construct, hs, hst, hn] at h
        | ok _ =>
          cases hsp : env.spotifyNew with
          | error e =>
            simp [mainModel, issuedRoles, joinAll, construct, hs, hst, hn, hsp] at h
          | ok _ =>
            cases htw : env.twitchNew with
            | error e =>
              simp [mainModel, issuedRoles, joinAll, construct, hs, hst, hn, hsp, htw] at h
            | ok _ =>
              cases player with
              | none =>
                simp [mainModel, issuedRoles, joinAll, construct, constructIrc,
                  hs, hst, hn, hsp, htw] at h
                obtain ⟨htr, hboot⟩ := h
                subst hboot
                refine ⟨sAcq, stAcq, [], [], rfl, rfl, rfl, rfl, by simp,
                  Or.inr (by simp), ?_, ?_⟩
                · intro hirc; simp at hirc
                · intro _; exact ⟨rfl, rfl, rfl⟩
              | some pv =>
                cases hf : featureTest features Feature.song with
                | false =>
                  simp [mainModel, issuedRoles, joinAll, construct, constructIrc,
                    hs, hst, hn, hsp, htw, hf] at h
                  obtain ⟨htr, hboot⟩ := h
                  subst hboot
                  refine ⟨sAcq, stAcq, [], [], rfl, rfl, rfl, rfl, by simp,
                    Or.inr (by simp [hf]), ?_, ?_⟩
                  · intro hirc; simp at hirc
                  · intro _; exact ⟨rfl, rfl, rfl⟩
                | true =>
                  cases hpr : env.playerRun with
                  | error e =>
                    simp [mainModel, issuedRoles, joinAll, construct, constructIrc,
                      hs, hst, hn, hsp, htw, hf, hpr] at h
                  | ok p =>
                    simp [mainModel, issuedRoles, joinAll, construct, constructIrc,
                      hs, hst, hn, hsp, htw, hf, hpr] at h
                    obtain ⟨htr, hboot⟩ := h
                    subst hboot
                    refine ⟨sAcq, stAcq, [BootTask.player], [], rfl, rfl, rfl, rfl,
                      by simp, Or.inl ⟨by simp, by simp [hf], rfl, p, rfl, by simp⟩,
                      ?_, ?_⟩
                    · intro hirc; simp at hirc
                    · intro _; exact ⟨rfl, rfl, rfl⟩
  | some iv =>
    cases hs : env.exec Role.spotify with
    | error e => simp [mainModel, issuedRoles, joinAll, hs] at h
    | ok sAcq =>
      cases hst : env.exec Role.twitchStreamer with
      | error e => simp [mainModel, issuedRoles, joinAll, hs, hst] at h
      | ok stAcq =>
        cases hb : env.exec Role.twitchBot with
        | error e => simp [mainModel, issuedRoles, joinAll, hs, hst, hb] at h
        | ok botAcq =>
          cases hn : env.notifierListen with
          | error e =>
            simp [mainModel, issuedRoles, joinAll, construct, hs, hst, hb, hn] at h
          | ok _ =>
            cases hsp : env.spotifyNew with
            | error e =>
              simp [mainModel, issuedRoles, joinAll, construct, hs, hst, hb, hn, hsp] at h
            | ok _ =>
              cases htw : env.twitchNew with
              | error e =>
                simp [mainModel, issuedRoles, joinAll, construct,
                  hs, hst, hb, hn, hsp, htw] at h
              | ok _ =>
                cases player with
                | none =>
                  cases hir : env.ircRun with
                  | error e =>
                    simp [mainModel, issuedRoles, joinAll, construct, constructIrc,
                      hs, hst, hb, hn, hsp, htw, hir] at h
                  | ok _ =>
                    simp [mainModel, issuedRoles, joinAll, construct, constructIrc,
                      hs, hst, hb, hn, hsp, htw, hir] at h
                    obtain ⟨htr, hboot⟩ := h
                    subst hboot
                    refine ⟨sAcq, stAcq, [],
                      [BootTask.renewal botAcq.renewalTask, BootTask.chat],
                      rfl, rfl, rfl, rfl, by simp, Or.inr (by simp), ?_, ?_⟩
                    · intro _; exact ⟨botAcq, rfl, rfl, by simp, by simp⟩
                    · intro h0; simp at h0
                | some pv =>
                  cases hf : featureTest features Feature.song with
                  | false =>
                    cases hir : env.ircRun with
                    | error e =>
                      simp [mainModel, issuedRoles, joinAll, construct, constructIrc,
                        hs, hst, hb, hn, hsp, htw, hf, hir] at h
                    | ok _ =>
                      simp [mainModel, issuedRoles, joinAll, construct, constructIrc,
                        hs, hst, hb, hn, hsp, htw, hf, hir] at h
                      obtain ⟨htr, hboot⟩ := h
                      subst hboot
                      refine ⟨sAcq, stAcq, [],
                        [BootTask.renewal botAcq.renewalTask, BootTask.chat],
                        rfl, rfl, rfl, rfl, by simp, Or.inr (by simp [hf]), ?_, ?_⟩
                      · intro _; exact ⟨botAcq, rfl, rfl, by simp, by simp⟩
                      · intro h0; simp at h0
                  | true =>
                    cases hpr : env.playerRun with
                    | error e =>
                      simp [mainModel, issuedRoles, joinAll, construct, constructIrc,
                        hs, hst, hb, hn, hsp, htw, hf, hpr] at h
                    | ok p =>
                      cases hir : env.ircRun with
                      | error e =>
                        simp [mainModel, issuedRoles, joinAll, construct, constructIrc,
                          hs, hst, hb, hn, hsp, htw, hf, hpr, hir] at h
                      | ok _ =>
                        simp [mainModel, issuedRoles, joinAll, construct, constructIrc,
                          hs, hst, hb, hn, hsp, htw, hf, hpr, hir] at h
                        obtain ⟨htr, hboot⟩ := h
                        subst hboot
                        refine ⟨sAcq, stAcq, [BootTask.player],
                          [BootTask.renewal botAcq.renewalTask, BootTask.chat],
                          rfl, rfl, rfl, rfl, by simp,
                          Or.inl ⟨by simp, by simp [hf], rfl, p, rfl, by simp⟩, ?_, ?_⟩
                        · intro _; exact ⟨botAcq, rfl, rfl, by simp, by simp⟩
                        · intro h0; simp at h0

/-- C1: if any issued credential acquisition fails, the bootstrap
terminates with a failing acquisition's error (exactly the failing
one's when the failure is unique), the trace stops at the acquisition
await, and no subsystem future is ever pushed. -/
theorem acquisition_failure_aborts (env : Env) (c : Config) (r : Role) (e : String)
    (hr : r ∈ issuedRoles c) (he : env.exec r = Except.error e) :
    (∃ e2, (mainModel env c).2 = Except.error e2 ∧
      ∃ r2 ∈ issuedRoles c, env.exec r2 = Except.error e2) ∧
    ((∀ r2 ∈ issuedRoles c, r2 ≠ r → (env.exec r2).isOk = true) →
      (mainModel env c).2 = Except.error e) ∧
    (mainModel env c).1 = Event.spawnDetachedWeb :: acquisitionEvents c ∧
    (∀ t, Event.pushFuture t ∉ (mainModel env c).1) := by
  have hmem : Except.error e ∈ (issuedRoles c).map env.exec :=
    List.mem_map.mpr ⟨r, hr, he⟩
  obtain ⟨e2, hj, hin⟩ := joinAll_error_of_mem _ _ hmem
  obtain ⟨r2, hr2, hre2⟩ := List.mem_map.mp hin
  refine ⟨⟨e2, by simp [mainModel, hj], ⟨r2, hr2, hre2⟩⟩, ?_, by simp [mainModel, hj], ?_⟩
  · intro hothers
    have hjs : joinAll ((issuedRoles c).map env.exec) = Except.error e := by
      apply joinAll_single_error _ _ hmem
      intro x hx hne
      obtain ⟨r3, hr3, hre3⟩ := List.mem_map.mp hx
      by_cases heq : r3 = r
      · exact absurd (by rw [← hre3, heq, he]) hne
      · rw [← hre3]; exact hothers r3 hr3 heq
    simp [mainModel, hjs]
  · intro t
    simp [mainModel, hj, acquisitionEvents]

/-- C1 witness: a rejected spotify acquisition aborts a concrete
bootstrap with that error, with nothing constructed. -/
theorem acquisition_failure_aborts_witness :
    Role.spotify ∈ issuedRoles cfgPlain ∧
    envFail.exec Role.spotify = Except.error "rejected" ∧
    ((∃ e2, (mainModel envFail cfgPlain).2 = Except.error e2 ∧
      ∃ r2 ∈ issuedRoles cfgPlain, envFail.exec r2 = Except.error e2) ∧
    ((∀ r2 ∈ issuedRoles cfgPlain, r2 ≠ Role.spotify →
        (envFail.exec r2).isOk = true) →
      (mainModel envFail cfgPlain).2 = Except.error "rejected") ∧
    (mainModel envFail cfgPlain).1 =
      Event.spawnDetachedWeb :: acquisitionEvents cfgPlain ∧
    (∀ t, Event.pushFuture t ∉ (mainModel envFail cfgPlain).1)) :=
  ⟨by decide, rfl,
    acquisition_failure_aborts envFail cfgPlain Role.spotify "rejected" (by decide) rfl⟩

/-- C2: the number of acquisition requests issued is exactly three when
a chat-runtime section is present and exactly two otherwise, for every
environment and every other configuration detail. -/
theorem acquisition_request_count (env : Env) (c : Config) :
    (mainModel env c).1.countP Event.isAcquire = if c.irc.isSome then 3 else 2 := by
  have hacq : (acquisitionEvents c).countP Event.isAcquire = (issuedRoles c).length := by
    simp [acquisitionEvents, List.countP_append, List.countP_map, List.countP_cons,
      Event.isAcquire, Function.comp, List.countP_true]
  have hlen : (issuedRoles c).length = if c.irc.isSome then 3 else 2 := by
    obtain ⟨irc, p, f⟩ := c
    cases irc <;> simp [issuedRoles]
  have hpush : ∀ futs : List BootTask,
      (futs.map Event.pushFuture).countP Event.isAcquire = 0 := by
    intro futs
    simp [List.countP_map, Function.comp, Event.isAcquire]
  rcases hj : joinAll ((issuedRoles c).map env.exec) with e | results
  · simp [mainModel, hj, List.countP_cons, Event.isAcquire, hacq, hlen]
  · rcases hcon : construct env c results with ⟨futs, res⟩
    cases res with
    | error e =>
      simp [mainModel, hj, hcon, List.countP_cons, List.countP_append,
        Event.isAcquire, hacq, hlen, hpush]
    | ok boot =>
      simp [mainModel, hj, hcon, List.countP_cons, List.countP_append,
        Event.isAcquire, hacq, hlen, hpush]

/-- Helper: every bootstrap trace starts with the detached web spawn. -/
theorem mainModel_trace_head (env : Env) (c : Config) :
    ∃ rest, (mainModel env c).1 = Event.spawnDetachedWeb :: rest := by
  rcases hj : joinAll ((issuedRoles c).map env.exec) with e | results
  · exact ⟨acquisitionEvents c, by simp [mainModel, hj]⟩
  · rcases hcon : construct env c results with ⟨futs, res⟩
    cases res with
    | error e =>
      exact ⟨acquisitionEvents c ++ futs.map Event.pushFuture,
        by simp [mainModel, hj, hcon]⟩
    | ok boot =>
      exact ⟨acquisitionEvents c ++ (futs.map Event.pushFuture ++ [Event.runJoinAll]),
        by simp [mainModel, hj, hcon]⟩

/-- C6: the web subsystem is spawned and started strictly before any
acquisition request is issued: every issue event in the trace has the
web spawn at a strictly earlier index. -/
theorem web_before_acquisition (env : Env) (c : Config) (i : Nat) (r : Role)
    (h : (mainModel env c).1.get? i = some (Event.issueAcquire r)) :
    ∃ j, j < i ∧ (mainModel env c).1.get? j = some Event.spawnDetachedWeb := by
  obtain ⟨rest, hrest⟩ := mainModel_trace_head env c
  refine ⟨0, ?_, by rw [hrest]; rfl⟩
  cases i with
  | zero => rw [hrest] at h; simp at h
  | succ n => exact Nat.succ_pos n

/-- C6 witness: in the concrete full bootstrap the first acquisition
issue sits at index 1 and the web spawn precedes it at index 0. -/
theorem web_before_acquisition_witness :
    (mainModel envOk cfgFull).1.get? 1 = some (Event.issueAcquire Role.spotify) ∧
    (∃ j, j < 1 ∧
      (mainModel envOk cfgFull).1.get? j = some Event.spawnDetachedWeb) :=
  ⟨by decide, web_before_acquisition envOk cfgFull 1 Role.spotify (by decide)⟩

/-- C5: credential results are consumed positionally in the fixed issue
order: the first result becomes the spotify token, the second the
streamer token, and, exactly when a chat-runtime section is present,
the third the bot token. -/
theorem tokens_consumed_positionally (env : Env) (c : Config) (tr : List Event)
    (boot : Boot) (h : mainModel env c = (tr, Except.ok boot)) :
    ∃ res, joinAll ((issuedRoles c).map env.exec) = Except.ok res ∧
      (issuedRoles c).get? 0 = some Role.spotify ∧
      (issuedRoles c).get? 1 = some Role.twitchStreamer ∧
      (c.irc.isSome = true → (issuedRoles c).get? 2 = some Role.twitchBot) ∧
      (res.get? 0).map Acq.token = some boot.spotifyToken ∧
      (res.get? 1).map Acq.token = some boot.streamerToken ∧
      (res.get? 2).map Acq.token = boot.botToken := by
  obtain ⟨sAcq, stAcq, pp, bp, hs, hst, hstok, hsttok, hfut, hplayer, hirc, hircn⟩ :=
    mainModel_ok_inversion env c tr boot h
  rcases hc : c.irc with _ | iv
  · obtain ⟨hbp0, hbt, hcp⟩ := hircn hc
    refine ⟨[sAcq, stAcq], ?_, ?_, ?_, ?_, ?_, ?_, ?_⟩
    · simp [issuedRoles, hc, joinAll, hs, hst]
    · simp [issuedRoles, hc]
    · simp [issuedRoles, hc]
    · intro h0; simp [hc] at h0
    · simp [hstok]
    · simp [hsttok]
    · simp [hbt]
  · obtain ⟨botAcq, hb, hbp0, hbt, hcp⟩ := hirc (by simp [hc])
    refine ⟨[sAcq, stAcq, botAcq], ?_, ?_, ?_, ?_, ?_, ?_, ?_⟩
    · simp [issuedRoles, hc, joinAll, hs, hst, hb]
    · simp [issuedRoles, hc]
    · simp [issuedRoles, hc]
    · intro _; simp [issuedRoles, hc]
    · simp [hstok]
    · simp [hsttok]
    · simp [hbt]

/-- C5 witness: the concrete full bootstrap consumes tokens 1, 2, 3 in
issue order. -/
theorem tokens_consumed_positionally_witness :
    mainModel envOk cfgFull = (traceFull, Except.ok bootFull) ∧
    (∃ res, joinAll ((issuedRoles cfgFull).map envOk.exec) = Except.ok res ∧
      (issuedRoles cfgFull).get? 0 = some Role.spotify ∧
      (issuedRoles cfgFull).get? 1 = some Role.twitchStreamer ∧
      (cfgFull.irc.isSome = true → (issuedRoles cfgFull).get? 2 = some Role.twitchBot) ∧
      (res.get? 0).map Acq.token = some bootFull.spotifyToken ∧
      (res.get? 1).map Acq.token = some bootFull.streamerToken ∧
      (res.get? 2).map Acq.token = bootFull.botToken) :=
  ⟨rfl, tokens_consumed_positionally envOk cfgFull traceFull bootFull rfl⟩

/-- C4: a player task is in the join set exactly when a player section
is present and the song feature is enabled; in every other
configuration there is no player task, the player handle is an explicit
absent value, and a constructed chat runtime receives that absent
value rather than an error. -/
theorem player_gating (env : Env) (c : Config) (tr : List Event) (boot : Boot)
    (h : mainModel env c = (tr, Except.ok boot)) :
    (BootTask.player ∈ boot.futures ↔
      (c.player.isSome = true ∧ featureTest c.features Feature.song = true)) ∧
    (¬(c.player.isSome = true ∧ featureTest c.features Feature.song = true) →
      boot.player = none ∧
      (c.irc.isSome = true → boot.chatPlayerArg = some none)) := by
  obtain ⟨sAcq, stAcq, pp, bp, hs, hst, hstok, hsttok, hfut, hplayer, hirc, hircn⟩ :=
    mainModel_ok_inversion env c tr boot h
  have hbp : BootTask.player ∉ bp := by
    rcases hcirc : c.irc with _ | iv
    · obtain ⟨hbp0, _, _⟩ := hircn hcirc; rw [hbp0]; simp
    · obtain ⟨botAcq, _, hbp0, _, _⟩ := hirc (by simp [hcirc]); rw [hbp0]; simp
  rcases hplayer with ⟨hps, hf, hpp, p, hpr, hbplayer⟩ | ⟨hncond, hpp, hbplayer⟩
  · refine ⟨?_, fun hn => absurd ⟨hps, hf⟩ hn⟩
    rw [hfut, hpp]
    simp [hps, hf]
  · constructor
    · rw [hfut, hpp]
      simp [hbp, hncond]
    · intro _
      refine ⟨hbplayer, fun hi => ?_⟩
      obtain ⟨botAcq, _, _, _, hcp⟩ := hirc hi
      rw [hcp, hbplayer]

/-- C4 witness: in the concrete full bootstrap the player section is
present, the song feature enabled, and the player task is a member of
the join set. -/
theorem player_gating_witness :
    mainModel envOk cfgFull = (traceFull, Except.ok bootFull) ∧
    ((BootTask.player ∈ bootFull.futures ↔
      (cfgFull.player.isSome = true ∧
        featureTest cfgFull.features Feature.song = true)) ∧
    (¬(cfgFull.player.isSome = true ∧
        featureTest cfgFull.features Feature.song = true) →
      bootFull.player = none ∧
      (cfgFull.irc.isSome = true → bootFull.chatPlayerArg = some none))) :=
  ⟨rfl, player_gating envOk cfgFull traceFull bootFull rfl⟩

/-- C3 (amended): the web-server task is spawned detached on a separate
runtime and is never a member of the final join set; the terminal
result of the join phase is therefore independent of the web task
outcome, whose error is only mapped to a log line. -/
theorem web_server_detached (env : Env) (c : Config) (tr : List Event) (boot : Boot)
    (h : mainModel env c = (tr, Except.ok boot)) :
    BootTask.webServer ∉ boot.futures ∧
    (∀ f g : BootTask → Except String Unit,
      (∀ t, t ≠ BootTask.webServer → f t = g t) →
      runPhase boot.futures f = runPhase boot.futures g) ∧
    (∀ e, runDetachedWeb (Except.error e) = ["Error in web server: " ++ e]) := by
  obtain ⟨sAcq, stAcq, pp, bp, hs, hst, hstok, hsttok, hfut, hplayer, hirc, hircn⟩ :=
    mainModel_ok_inversion env c tr boot h
  have hppw : BootTask.webServer ∉ pp := by
    rcases hplayer with ⟨_, _, hpp, _⟩ | ⟨_, hpp, _⟩ <;> rw [hpp] <;> simp
  have hbpw : BootTask.webServer ∉ bp := by
    rcases hcirc : c.irc with _ | iv
    · obtain ⟨hbp0, _, _⟩ := hircn hcirc; rw [hbp0]; simp
    · obtain ⟨botAcq, _, hbp0, _, _⟩ := hirc (by simp [hcirc]); rw [hbp0]; simp
  have hmem : BootTask.webServer ∉ boot.futures := by
    rw [hfut]
    simp [hppw, hbpw]
  refine ⟨hmem, ?_, fun e => rfl⟩
  intro f g hfg
  unfold runPhase
  have hmap : boot.futures.map f = boot.futures.map g :=
    List.map_congr_left (fun t ht => hfg t (fun hEq => hmem (hEq ▸ ht)))
  rw [hmap]

/-- C3 witness: the concrete full bootstrap succeeds, so the amended
statement holds at it. -/
theorem web_server_detached_witness :
    mainModel envOk cfgFull = (traceFull, Except.ok bootFull) ∧
    (BootTask.webServer ∉ bootFull.futures ∧
    (∀ f g : BootTask → Except String Unit,
      (∀ t, t ≠ BootTask.webServer → f t = g t) →
      runPhase bootFull.futures f = runPhase bootFull.futures g) ∧
    (∀ e, runDetachedWeb (Except.error e) = ["Error in web server: " ++ e])) :=
  ⟨rfl, web_server_detached envOk cfgFull traceFull bootFull rfl⟩

/-- C3 counterexample: in a concrete fully successful bootstrap the
join set is explicit, and the web-server task is not one of its
members, contradicting its claimed membership in the final join set. -/
theorem web_not_in_join_set_cex :
    (mainModel envOk cfgFull).2 = Except.ok bootFull ∧
    bootFull.futures =
      [BootTask.renewal 11, BootTask.renewal 12, BootTask.notifier, BootTask.player,
        BootTask.renewal 13, BootTask.chat] ∧
    BootTask.webServer ∉ bootFull.futures :=
  ⟨rfl, rfl, by decide⟩
